import Mathlib

/-!
Verification development for the `update-photonotes` repository.

Shallow embedding of the Python modules `flickr_types.py`, `flickr_utils.py`,
`database.py`, `cached_lookup.py`, `updater.py`, `note_creator.py` and
`blog_info.py`.  Python strings are Lean `String`s, Python `None`-able values
are `Option`s, raised exceptions are `Except.error`, and `datetime.date`
values are the `PyDate` structure below together with the proleptic Gregorian
ordinal used by Python's `date` arithmetic.
-/

namespace UpdatePhotonotes

/-! ## Python string primitives

Python `str.strip`, `str.split(sep)` for a one-character separator and
`sep.join(...)`, modelled over the character list of a `String`. -/

/-- The characters Python `str.strip()` removes. -/
def isPySpace (c : Char) : Bool :=
  c = ' ' || c = '\t' || c = '\n' || c = '\r' || c = '\x0b' || c = '\x0c'

/-- `str.strip()` on a character list. -/
def pyStripList (l : List Char) : List Char :=
  ((l.dropWhile isPySpace).reverse.dropWhile isPySpace).reverse

/-- Python `s.strip()`. -/
def pyStrip (s : String) : String := ⟨pyStripList s.data⟩

/-- Python `s.split(sep)` (one-character separator) on a character list;
`"".split` gives `[""]` and empty fields are kept, as in Python. -/
def splitChAux (sep : Char) : List Char → List (List Char)
  | [] => [[]]
  | c :: rest =>
    match splitChAux sep rest with
    | [] => [[]]
    | w :: ws => if c = sep then [] :: w :: ws else (c :: w) :: ws

/-- Python `s.split(sep)` for a one-character separator. -/
def splitCh (sep : Char) (s : String) : List String :=
  (splitChAux sep s.data).map (fun l => ⟨l⟩)

/-- Python `sep.join(words)` (one-character separator) on character lists. -/
def joinChAux (sep : Char) : List (List Char) → List Char
  | [] => []
  | [w] => w
  | w :: ws => w ++ sep :: joinChAux sep ws

/-- Python `sep.join(words)` for a one-character separator. -/
def joinCh (sep : Char) (ws : List String) : String :=
  ⟨joinChAux sep (ws.map String.data)⟩

/-- Python `s[n:]` (drop the first `n` characters). -/
def pyDrop (n : Nat) (s : String) : String := ⟨s.data.drop n⟩

/-- Python `s[:n]` (take the first `n` characters). -/
def pyTake (n : Nat) (s : String) : String := ⟨s.data.take n⟩

/-- Python `s.startswith(p)`. -/
def pyStartsWith (s p : String) : Bool := p.data.isPrefixOf s.data

/-- Keep the first occurrence of every element, dropping later duplicates.
Used to model a Python `set` built by inserting elements in a known order,
with the set's iteration order taken to be insertion order. -/
def dedupF : List String → List String
  | [] => []
  | x :: xs => x :: (dedupF xs).filter (fun y => y ≠ x)

/-- Fuel-driven worker for `str.split` with a multi-character separator
(leftmost-first matching, empty fields kept); the fuel is the input length,
which the recursion never exhausts. -/
def pySplitStrAux (sep : List Char) : Nat → List Char → List (List Char)
  | _, [] => [[]]
  | 0, l => [l]
  | fuel + 1, c :: rest =>
    if sep ≠ [] && sep.isPrefixOf (c :: rest) then
      [] :: pySplitStrAux sep fuel (List.drop sep.length (c :: rest))
    else
      match pySplitStrAux sep fuel rest with
      | [] => [[]]
      | w :: ws => (c :: w) :: ws

/-- Python `s.split(sep)` for a multi-character separator. -/
def pySplitStr (sep : String) (s : String) : List String :=
  (pySplitStrAux sep.data s.data.length s.data).map (fun l => ⟨l⟩)

/-- Substring occurrence test, Python `sub in s`. -/
def pyContainsAux (sub : List Char) : List Char → Bool
  | [] => false
  | c :: rest => sub.isPrefixOf (c :: rest) || pyContainsAux sub rest

/-- Python `sub in s`. -/
def pyContains (s sub : String) : Bool :=
  sub.data.isEmpty || pyContainsAux sub.data s.data

/-- Python `s.replace(c, r)` for one-character arguments. -/
def pyReplaceChar (c r : Char) (s : String) : String :=
  ⟨s.data.map (fun x => if x = c then r else x)⟩


/-! ## Dates (`datetime.date`)

`flickr_types.FlickrDate` wraps an optional `datetime.date`.  Python dates
carry a year in `1..9999`, a month and a day; their subtraction yields a day
count given by the proleptic Gregorian ordinal. -/

/-- A Python `datetime.date` value. -/
structure PyDate where
  year : Nat
  month : Nat
  day : Nat
deriving DecidableEq, Repr

/-- Gregorian leap-year rule. -/
def isLeapYear (y : Nat) : Bool :=
  (y % 4 = 0 && y % 100 ≠ 0) || y % 400 = 0

/-- Number of days in a month. -/
def daysInMonth (y m : Nat) : Nat :=
  if m = 2 then (if isLeapYear y then 29 else 28)
  else if m = 4 || m = 6 || m = 9 || m = 11 then 30
  else 31

/-- Validity of a `datetime.date` triple (Python accepts years 1..9999). -/
def PyDate.valid (d : PyDate) : Bool :=
  1 ≤ d.year && d.year ≤ 9999 && 1 ≤ d.month && d.month ≤ 12 &&
    1 ≤ d.day && d.day ≤ daysInMonth d.year d.month

/-- Days in the years strictly before year `y`. -/
def daysBeforeYear (y : Nat) : Nat :=
  365 * (y - 1) + (y - 1) / 4 - (y - 1) / 100 + (y - 1) / 400

/-- Days in the months of year `y` strictly before month `m`. -/
def daysBeforeMonth (y m : Nat) : Nat :=
  let feb := if isLeapYear y then 29 else 28
  match m with
  | 1 => 0
  | 2 => 31
  | 3 => 31 + feb
  | 4 => 62 + feb
  | 5 => 92 + feb
  | 6 => 123 + feb
  | 7 => 153 + feb
  | 8 => 184 + feb
  | 9 => 215 + feb
  | 10 => 245 + feb
  | 11 => 276 + feb
  | 12 => 306 + feb
  | _ => 337 + feb

/-- Python `date.toordinal()`: day number in the proleptic Gregorian
calendar, with `0001-01-01` mapped to 1.  Date comparison and subtraction
(`timedelta` in days) go through this ordinal. -/
def PyDate.toOrdinal (d : PyDate) : Nat :=
  daysBeforeYear d.year + daysBeforeMonth d.year d.month + d.day

/-- Digit character of a value below 10 (codepoint 48 is `0`). -/
def digitChar (n : Nat) : Char := Char.ofNat (48 + n % 10)

/-- Numeric value of a decimal digit character, `none` on anything else
(`str.isdigit` / digit parsing). -/
def charDigit? (c : Char) : Option Nat :=
  if 48 ≤ c.toNat && c.toNat ≤ 57 then some (c.toNat - 48) else none

/-- The value of a nonempty all-digit character list; `none` otherwise
(the failure of Python `int(...)`). -/
def natFromDigits? (ds : List Char) : Option Nat :=
  if ds.isEmpty then none
  else ds.foldl (fun acc c => do
    let a ← acc
    let d ← charDigit? c
    some (a * 10 + d)) (some 0)

/-- Split a character list at its longest all-digit suffix (the `while pos
> 0 and part0[pos-1:].isdigit()` loop of `_extract_albumold_item_info`). -/
def digitSuffixSplit (l : List Char) : List Char × List Char :=
  let rev := l.reverse
  let digs := rev.takeWhile (fun c => (charDigit? c).isSome)
  ((rev.drop digs.length).reverse, digs.reverse)

/-- Two-digit zero-padded decimal rendering. -/
def pad2 (n : Nat) : List Char := [digitChar (n / 10 % 10), digitChar (n % 10)]

/-- Four-digit zero-padded decimal rendering. -/
def pad4 (n : Nat) : List Char :=
  [digitChar (n / 1000 % 10), digitChar (n / 100 % 10),
   digitChar (n / 10 % 10), digitChar (n % 10)]

/-- Python `date.isoformat()` / `date.strftime("%Y-%m-%d")`:
the zero-padded `YYYY-MM-DD` rendering. -/
def PyDate.isoformat (d : PyDate) : String :=
  ⟨pad4 d.year ++ '-' :: (pad2 d.month ++ '-' :: pad2 d.day)⟩

/-- Python `date.fromisoformat`: accepts exactly `YYYY-MM-DD` with a valid
calendar date, rejecting everything else with `ValueError`. -/
def parseIsoDate (s : String) : Option PyDate :=
  match s.data with
  | [y1, y2, y3, y4, '-', m1, m2, '-', e1, e2] => do
    let a ← charDigit? y1
    let b ← charDigit? y2
    let c ← charDigit? y3
    let d ← charDigit? y4
    let m ← charDigit? m1
    let n ← charDigit? m2
    let p ← charDigit? e1
    let q ← charDigit? e2
    let dt : PyDate := ⟨a * 1000 + b * 100 + c * 10 + d, m * 10 + n, p * 10 + q⟩
    if dt.valid then some dt else none
  | _ => none

/-! ## `flickr_types.py` -/

/-- `FlickrDate` wraps an optional date (`._value`). -/
abbrev FlickrDate := Option PyDate

/-- `FlickrDate.__init__`: a `None` stays absent; a string goes through
`datetime.date.fromisoformat`, which raises on anything malformed. -/
def FlickrDate.fromValue : Option String → Except String FlickrDate
  | none => .ok none
  | some s =>
    match parseIsoDate s with
    | some d => .ok (some d)
    | none => .error "ValueError: invalid isoformat string"

/-- `FlickrDate.serialize`: `strftime("%Y-%m-%d")` of the value, or `None`. -/
def FlickrDate.serialize : FlickrDate → Option String
  | none => none
  | some d => some d.isoformat

/-- `FlickrDate.__bool__`: truthiness is "has a value". -/
def FlickrDate.toBool : FlickrDate → Bool
  | none => false
  | some _ => true

/-- `flickr_types.FlickrPhotoNote` with the field defaults of its
`__init__`. -/
structure FlickrPhotoNote where
  image_key : String
  guid_note : String
  is_primary : Bool := false
  note_tags : Option String := none
  blog_id : Option String := none
  need_cleanup : String := ""
  date_verified : FlickrDate := none
  photo_id : Option String := none
  secret_id : Option String := none
  size_suffix : Option String := none
  photo_taken : FlickrDate := none
  photo_uploaded : FlickrDate := none
  entry_updated : FlickrDate := none
  is_gone : Bool := false
deriving Repr

/-- `FlickrPhotoNote.add_cleanup` for a list argument: split the current
`need_cleanup` on pipes into a set, insert each absent value, join back.
The Python `set` is modelled as a list deduplicated in insertion order. -/
def FlickrPhotoNote.add_cleanup_values (need : String) (values : List String) : String :=
  let cleanups := dedupF (splitCh '|' need)
  let cleanups := values.foldl
    (fun acc v => if v ∈ acc then acc else acc ++ [v]) cleanups
  joinCh '|' cleanups

/-- `add_cleanup` with a single string argument (the `isinstance(value, str)`
branch wraps it into a one-element list). -/
def FlickrPhotoNote.add_cleanup_str (need : String) (v : String) : String :=
  FlickrPhotoNote.add_cleanup_values need [v]

/-- `FlickrPhotoNote.clear_cleanup`: always resets to the empty string. -/
def FlickrPhotoNote.clear_cleanup (_need : String) : String := ""

/-! ## `flickr_utils.py` -/

/-- The module-level names defined in `flickr_utils.py` (imports, functions
and the cache class), transcribed from the source. -/
def flickr_utils_names : List String :=
  ["os", "datetime", "etree", "flickr_api", "Photo", "Person", "utils",
   "logging", "logger",
   "get_auth_file", "authenticate", "get_credentials",
   "get_firstdate", "get_firstdatetaken", "get_lastupdate", "get_uploaded",
   "get_taken", "get_license_info", "cleanup_description",
   "CountingAPIcallsCache"]

/-- `flickr_utils` defines no attribute `is_flickr_url`: the attribute access
`flickr_utils.is_flickr_url` and the import `from .flickr_utils import
is_flickr_url` both fail.  `none` records that no such function exists. -/
def flickr_utils_is_flickr_url : Option (String → String → Bool) := none

/-- The literal code-to-label dictionary of `get_license_info`. -/
def license_info_table : List (String × String) :=
  [("0", "All Rights reserved"),
   ("1", "CC BY-NC-SA 2.0"),
   ("2", "CC BY-NC 2.0"),
   ("3", "CC BY-NC-ND 2.0"),
   ("4", "CC BY 2.0"),
   ("5", "CC BY-SA 2.0"),
   ("9", "CC0 1.0 Public Domain"),
   ("10", "Public Domain Mark 1.0")]

/-- `flickr_utils.get_license_info`: `dict.get` on the fixed table. -/
def get_license_info (license : String) : Option String :=
  license_info_table.lookup license

/-! ## `database.py`

The `flickr_image` table: a row per column of `DB_SCHEMA_PN`, and
`FlickrImageStorage.update_image`, whose `REPLACE INTO` lists only eight
columns so every other column of a replaced row reverts to its schema
default (`NULL`, and `FALSE` for `is_gone`). -/

/-- The link descriptor dict built by `NotesUpdater._handle_image_link`. -/
structure LinkInfo where
  image_key : String
  blog_id : String
  photo_id : String
  context : Option String := none
deriving DecidableEq, Repr

/-- One row of the `flickr_image` table (all columns of `DB_SCHEMA_PN`). -/
structure ImageRow where
  image_key : String
  guid_note : String
  is_primary : Bool
  note_tags : Option String
  blog_id : Option String
  entry_updated : Option String
  date_verified : Option String
  photo_id : String
  secret_id : Option String
  size_suffix : Option String
  photo_taken : Option String
  photo_uploaded : Option String
  is_gone : Bool
deriving DecidableEq, Repr

/-- The row written by `FlickrImageStorage.update_image`: the eight listed
columns come from the `values` dict (`entry_updated` is
`FlickrDate.today().serialize()`, i.e. the current date), every unlisted
column takes its schema default. -/
def update_image_row (photonote : FlickrPhotoNote) (flickr_link : LinkInfo)
    (is_primary : Bool) (today : PyDate) : ImageRow :=
  { entry_updated := FlickrDate.serialize (some today)
    is_primary := is_primary
    image_key := flickr_link.image_key
    photo_id := flickr_link.photo_id
    blog_id := some flickr_link.blog_id
    guid_note := photonote.guid_note
    note_tags := photonote.note_tags
    date_verified := FlickrDate.serialize photonote.date_verified
    secret_id := none
    size_suffix := none
    photo_taken := none
    photo_uploaded := none
    is_gone := false }

/-- SQLite `REPLACE INTO flickr_image`: delete any row conflicting on the
primary key `(image_key, guid_note)`, then insert the new row. -/
def replace_into (db : List ImageRow) (r : ImageRow) : List ImageRow :=
  r :: db.filter (fun x => !(x.image_key = r.image_key && x.guid_note = r.guid_note))

/-- Lookup of the row with the given primary key. -/
def lookup_row (db : List ImageRow) (k g : String) : Option ImageRow :=
  db.find? (fun x => x.image_key = k && x.guid_note = g)

/-! ## `cached_lookup.py`

`CachedLookupPhoto.update_cache` as a pure function from the previously
stored photo list and the freshly fetched page to the newly stored list and
the returned position. -/

/-- A cached photo id: the string Flickr id, or the literal `-1` marker
entry the merge appends when the previous head was not found. -/
inductive PhotoId where
  | real (s : String)
  | marker
deriving DecidableEq, Repr

/-- One `{id, taken, uploaded}` entry of the per-user JSON cache. -/
structure PhotoInfo where
  id : PhotoId
  taken : String
  uploaded : String
deriving DecidableEq, Repr

/-- The `{'id': -1, 'taken': now, 'uploaded': '*'}` marker entry. -/
def markerEntry (now : String) : PhotoInfo :=
  { id := .marker, taken := now, uploaded := "*" }

/-- `CachedLookupPhoto.update_cache`.  `cached` is the loaded cache
(`none` when the cache file is missing), `updates` the freshly fetched page
(already passed through `_extract_photo_info`), `now` the current time
string used for the marker.  Returns the list passed to `_store_cache` and
the returned `pos`; a present-but-empty cache list hits `self.photos[0]`
and raises `IndexError`. -/
def update_cache (cached : Option (List PhotoInfo)) (updates : List PhotoInfo)
    (now : String) : Except String (List PhotoInfo × Int) :=
  match cached with
  | none => .ok (updates, 0)
  | some [] => .error "IndexError: list index out of range"
  | some (newest_before :: rest) =>
    let new_photos := updates.takeWhile (fun p => p.id ≠ newest_before.id)
    let found := updates.any (fun p => p.id = newest_before.id)
    if new_photos.isEmpty then
      .ok (newest_before :: rest, 0)
    else if found then
      .ok (new_photos ++ newest_before :: rest, (new_photos.length : Int))
    else
      .ok (new_photos ++ markerEntry now :: newest_before :: rest, -1)

/-! ## `updater.py`

The decision logic of `NotesUpdater._update_flickr_image` (which notes get a
database write), the staleness gate `_update_blog` and the export step of
`_update_flickr_blog`. -/

/-- `NO_UPDATE_AGE` default: `3*30` days. -/
def NO_UPDATE_AGE : Int := 3 * 30

/-- The result dict assembled by `_analyze_photo_note`: the photo-note
record to write (`photo_note`), the primary image link (`link`), the
per-image-key link dict in insertion order (`all`) and the see-info. -/
structure AnalysisResult where
  photo_note : Option FlickrPhotoNote
  link : Option LinkInfo
  all : List LinkInfo
  see : Option String

/-- What `_update_flickr_image` did: the `update_flickr_info` flag, whether
it returned early (no photo note), and every `update_image` call it issued,
as `(record, link, is_primary)` triples in call order. -/
structure UpdateOutcome where
  update_flickr_info : Bool
  early_return : Bool
  writes : List (FlickrPhotoNote × LinkInfo × Bool)

/-- `NotesUpdater._update_flickr_image`, given the analysis result for the
note, the note's guid and `date_updated()`, and today's date.  Mirrors the
source: the staleness check only chooses `update_flickr_info` (the code even
computes the age as `entry_updated - today`, a non-positive number of days);
the `update_image` calls at the end are issued whenever a photo note and a
link exist, regardless of the flag. -/
def update_flickr_image (res : AnalysisResult) (note_guid : String)
    (note_updated : PyDate) (today : PyDate) : UpdateOutcome :=
  let flag_pn : Bool × Option FlickrPhotoNote :=
    match res.photo_note with
    | some pn =>
      if note_guid ≠ pn.guid_note then
        (true, some { pn with guid_note := note_guid })
      else
        match pn.date_verified with
        | none => (true, some pn)
        | some dv =>
          if note_updated.toOrdinal > dv.toOrdinal then (true, some pn)
          else
            match pn.entry_updated with
            | some eu =>
              if (eu.toOrdinal : Int) - (today.toOrdinal : Int) < NO_UPDATE_AGE
              then (false, some pn) else (true, some pn)
            | none => (true, some pn)
    | none =>
      if res.link.isSome then (true, none)
      else (false, none)
  match flag_pn.2, res.photo_note with
  | _, none =>
    { update_flickr_info := flag_pn.1, early_return := true, writes := [] }
  | none, some _ =>
    { update_flickr_info := flag_pn.1, early_return := true, writes := [] }
  | some pn0, some _ =>
    let pn := if flag_pn.1 then { pn0 with entry_updated := some today } else pn0
    let primary_writes : List (FlickrPhotoNote × LinkInfo × Bool) :=
      match res.link with
      | some l => [(pn, l, true)]
      | none => []
    let stacked := res.all.filter (fun l =>
      match res.link with
      | some pl => l.image_key ≠ pl.image_key
      | none => true)
    { update_flickr_info := flag_pn.1
      early_return := false
      writes := primary_writes ++ stacked.map (fun l => (pn, l, false)) }

/-- The fields of a successful `BlogInfo.extract` that `_update_blog`
consults: the parsed trailing timestamp and the note-updated date, as
minutes on a common clock (`datetime` arithmetic). -/
structure BlogExtract where
  timestamp : Option Int
  note_updated : Option Int
deriving Repr

/-- `NO_UPDATE_AGE` as a `timedelta` in minutes. -/
def NO_UPDATE_AGE_MINUTES : Int := NO_UPDATE_AGE * 24 * 60

/-- `BlogInfo.generate`: literally `return None  # TODO future`. -/
def BlogInfo.generate : Option String := none

/-- `NotesUpdater._update_blog`: `none` when extraction failed or no update
is required, otherwise the regenerated content — which is
`BlogInfo.generate`, i.e. always `none`. -/
def update_blog (extracted : Option BlogExtract) (now : Int) : Option String :=
  match extracted with
  | none => none
  | some b =>
    let age : Int :=
      match b.timestamp with
      | some ts => now - ts
      | none =>
        match b.note_updated with
        | some nu => now - nu
        | none => NO_UPDATE_AGE_MINUTES
    if age < NO_UPDATE_AGE_MINUTES then
      if b.timestamp.isNone then BlogInfo.generate else none
    else BlogInfo.generate

/-- `NotesUpdater._update_flickr_blog`: returns early (no export, `ok none`)
when `_update_blog` yields `None`.  If content ever were returned, the export
block would fail before writing anything: `self.base_path` is never assigned
in `__init__` (AttributeError), and the following `re.search` is called with
the pattern as its only argument (TypeError). -/
def update_flickr_blog (extracted : Option BlogExtract) (now : Int) :
    Except String (Option String) :=
  match update_blog extracted now with
  | none => .ok none
  | some _ => .error "AttributeError: NotesUpdater object has no attribute base_path"

/-! ## `note_creator.py`

`NoteCreator.create_note` and its first step `is_photo_url`, which calls
`flickr_utils.is_flickr_url` — an attribute `flickr_utils.py` never
defines. -/

/-- The externally visible actions of a photo-note creation run, in the
order `create_note` would perform them. -/
inductive CreateStep where
  | write_intent_file
  | resolve_user
  | resolve_photo
deriving DecidableEq, Repr

/-- `NoteCreator.is_photo_url`: `return flickr_utils.is_flickr_url(url,
'photos/')`.  The attribute access fails, so the call raises for every
input. -/
def is_photo_url (url : String) : Except String Bool :=
  match flickr_utils_is_flickr_url with
  | none => .error "AttributeError: module flickr_utils has no attribute is_flickr_url"
  | some f => .ok (f url "photos/")

/-- `NoteCreator.create_note`: the guard `if not self.is_photo_url(...)` is
its first statement; the later phases (intent `.txt` file, user lookup,
photo resolution) are statically unreachable because `is_photo_url` always
raises, and are summarized as their step markers. -/
def create_note (url : String) : Except String Bool × List CreateStep :=
  match is_photo_url url with
  | .error e => (.error e, [])
  | .ok false => (.error "ValueError: not a valid Flickr URL", [])
  | .ok true =>
    (.ok true, [.write_intent_file, .resolve_user, .resolve_photo])

/-- `updater.py` line 19: `from .flickr_utils import is_flickr_url`, run at
module import time. -/
def updater_module_import : Except String Unit :=
  match flickr_utils_is_flickr_url with
  | none => .error "ImportError: cannot import name is_flickr_url from flickr_utils"
  | some _ => .ok ()

/-! ## `blog_info.py` — element model

An `lxml` element: tag, attribute list, leading text, children, and the
text that follows the element (`tail`).  A mutual inductive keeps all
recursions structural. -/

mutual
inductive Elem where
  | mk (tag : String) (attrs : List (String × String)) (text : Option String)
      (children : ElemList) (tail : Option String)
inductive ElemList where
  | nil
  | cons (e : Elem) (es : ElemList)
end

/-- Tag of an element. -/
def Elem.tag : Elem → String
  | .mk t _ _ _ _ => t

/-- Attributes of an element. -/
def Elem.attrs : Elem → List (String × String)
  | .mk _ a _ _ _ => a

/-- Leading text of an element (`.text`). -/
def Elem.text : Elem → Option String
  | .mk _ _ t _ _ => t

/-- Children of an element. -/
def Elem.children : Elem → ElemList
  | .mk _ _ _ c _ => c

/-- Trailing text of an element (`.tail`). -/
def Elem.tail : Elem → Option String
  | .mk _ _ _ _ t => t

/-- Child list as a `List`. -/
def ElemList.toList : ElemList → List Elem
  | .nil => []
  | .cons e es => e :: es.toList

/-- Child list from a `List`. -/
def ElemList.ofList : List Elem → ElemList
  | [] => .nil
  | e :: es => .cons e (ElemList.ofList es)

/-- An optional text node as a list of strings. -/
def optText : Option String → List String
  | none => []
  | some s => [s]

mutual
/-- XPath `.//text()` from an element: its `.text`, then recursively each
child's text nodes followed by that child's `.tail`, in document order. -/
def Elem.subtexts : Elem → List String
  | .mk _ _ text children _ => optText text ++ ElemList.subtextsTails children

/-- Helper for `Elem.subtexts` over a child list. -/
def ElemList.subtextsTails : ElemList → List String
  | .nil => []
  | .cons e es => Elem.subtexts e ++ optText (Elem.tail e) ++ ElemList.subtextsTails es
end

/-- The tails of the direct children, in order. -/
def ElemList.tails : ElemList → List String
  | .nil => []
  | .cons e es => optText (Elem.tail e) ++ ElemList.tails es

/-- XPath `./text()` from an element: its `.text` and the tail of each
direct child. -/
def Elem.owntexts (e : Elem) : List String :=
  optText e.text ++ ElemList.tails e.children

mutual
/-- `etree.tostring(node)`: serialized element, `.tail` included; an element
with no text and no children self-closes (`<br/>`). -/
def Elem.serialize : Elem → String
  | .mk tag attrs text children tail =>
    let attrStr := attrs.foldl (fun acc kv => acc ++ " " ++ kv.1 ++ "=\x22" ++ kv.2 ++ "\x22") ""
    let inner := (match text with | none => "" | some t => t) ++ ElemList.serializeAll children
    (if inner = "" then "<" ++ tag ++ attrStr ++ "/>"
     else "<" ++ tag ++ attrStr ++ ">" ++ inner ++ "</" ++ tag ++ ">")
      ++ (match tail with | none => "" | some t => t)

/-- Serialization of a child list. -/
def ElemList.serializeAll : ElemList → String
  | .nil => ""
  | .cons e es => Elem.serialize e ++ ElemList.serializeAll es
end

/-- `BlogInfo._extract_node_text`: space-join of `.//text()`, stripped. -/
def node_text (e : Elem) : String :=
  pyStrip (joinCh ' ' e.subtexts)

/-- `BlogInfo._is_empty`: no non-`br` children and no text content. -/
def is_empty (e : Elem) : Bool :=
  (e.children.toList.filter (fun n => n.tag ≠ "br")).isEmpty
    && pyStrip (joinCh ' ' e.subtexts) = ""

/-- `BlogInfo._is_marker`: no non-`br` children and the stripped space-join
of `./text()` equals the marker text. -/
def is_marker (e : Elem) (info : String) : Bool :=
  (e.children.toList.filter (fun n => n.tag ≠ "br")).isEmpty
    && pyStrip (joinCh ' ' e.owntexts) = info

/-! ## `blog_info.py` — field extractors -/

/-- `int(...)` on a string: optional sign and decimal digits after
stripping, anything else raises `ValueError`. -/
def pyInt? (s : String) : Option Int :=
  match (pyStrip s).data with
  | '-' :: ds => (natFromDigits? ds).map (fun n => -(n : Int))
  | '+' :: ds => (natFromDigits? ds).map (fun n => (n : Int))
  | ds => (natFromDigits? ds).map (fun n => (n : Int))

/-- `BlogInfo._extract_timestamp`: `strptime(value, "%Y-%m-%dT%H:%M")`,
`None` on failure. -/
def parseTimestampMin (s : String) : Option (PyDate × Nat × Nat) :=
  match s.data with
  | [y1, y2, y3, y4, '-', m1, m2, '-', e1, e2, 'T', h1, h2, ':', n1, n2] => do
    let a ← charDigit? y1
    let b ← charDigit? y2
    let c ← charDigit? y3
    let d ← charDigit? y4
    let m ← charDigit? m1
    let n ← charDigit? m2
    let p ← charDigit? e1
    let q ← charDigit? e2
    let h ← charDigit? h1
    let i ← charDigit? h2
    let j ← charDigit? n1
    let k ← charDigit? n2
    let dt : PyDate := ⟨a * 1000 + b * 100 + c * 10 + d, m * 10 + n, p * 10 + q⟩
    let hour := h * 10 + i
    let minute := j * 10 + k
    if dt.valid && hour ≤ 23 && minute ≤ 59 then some (dt, hour, minute) else none
  | _ => none

/-- `BlogInfo._extract_isodate`: `node.text.strip()` (AttributeError when
the node has no text) parsed with `strptime(value, "%Y-%m-%d")`. -/
def extract_isodate (node : Elem) : Except String PyDate :=
  match node.text with
  | none => .error "AttributeError: NoneType object has no attribute strip"
  | some t =>
    match parseIsoDate (pyStrip t) with
    | some d => .ok d
    | none => .error "ValueError: time data does not match format Y-m-d"

/-- One image reference as assembled by `_extract_image_info` /
`_extract_moreimage`: text fragments before/after the link, the link
(`href := none` when the dict has no `href` key, `some none` when it was
set to `None`), the link text and the highlighted image id. -/
structure ImageInfo where
  before : List String := []
  after : List String := []
  href : Option (Option String) := none
  title : Option String := none
  image_id : Option String := none
deriving DecidableEq, Repr

/-- `BlogInfo._extract_image_link`: href is mandatory (`KeyError`
otherwise); `rel`/`rev`/`shape` attributes are asserted to carry their
fixed values and any further attribute is an assertion failure. -/
def extract_image_link (node : Elem) : Except String (String × String) := do
  if node.tag ≠ "a" then
    .error "AssertionError: expect anchor"
  else
    match node.attrs.lookup "href" with
    | none => .error "KeyError: href"
    | some href =>
      let title := node_text node
      let bad := node.attrs.filter (fun kv =>
        !(kv.1 = "href"
          || (kv.1 = "rel" && kv.2 = "noopener noreferrer")
          || (kv.1 = "rev" && kv.2 = "en_rl_none")
          || (kv.1 = "shape" && kv.2 = "rect")))
      if bad.isEmpty then .ok (href, title)
      else .error "AssertionError: unhandled image anchor attrib"

/-- Child loop of `BlogInfo._extract_image_info`. -/
def extract_image_info_loop (info : ImageInfo) (posAfter : Bool) :
    List Elem → Except String ImageInfo
  | [] => .ok info
  | sub :: rest =>
    if sub.tag = "a" then
      if posAfter then .error "AssertionError: expect single link per image"
      else do
        let ht ← extract_image_link sub
        extract_image_info_loop
          { info with href := some (some ht.1), title := some ht.2 } true rest
    else if sub.tag = "span" then
      let style := (sub.attrs.lookup "style").getD ""
      if posAfter && pyStartsWith style "--en-highlight:yellow" then
        if !(sub.children.toList.isEmpty) then
          .error "AssertionError: highlight span with children"
        else
          match sub.text with
          | none => .error "AttributeError: NoneType object has no attribute strip"
          | some t =>
            let image_id := pyStrip t
            -- a non-digit id is only logged, not rejected
            if info.image_id.isSome then
              .error "AssertionError: single image_id only"
            else
              extract_image_info_loop { info with image_id := some image_id } posAfter rest
      else
        let frag := sub.serialize
        extract_image_info_loop
          (if posAfter then { info with after := info.after ++ [frag] }
           else { info with before := info.before ++ [frag] }) posAfter rest
    else if sub.tag = "b" then
      let frag := sub.serialize
      extract_image_info_loop
        (if posAfter then { info with after := info.after ++ [frag] }
         else { info with before := info.before ++ [frag] }) posAfter rest
    else if sub.tag = "br" then
      extract_image_info_loop info posAfter rest
    else
      .error "ValueError: unhandled element in image info"

/-- `BlogInfo._extract_image_info` on one list-item body. -/
def extract_image_info (node : Elem) : Except String ImageInfo :=
  if node.tag ≠ "div" then .error "AssertionError: expect div"
  else extract_image_info_loop {} false node.children.toList

/-- Item loop of `BlogInfo._extract_images`. -/
def extract_images_loop : List Elem → Except String (List ImageInfo)
  | [] => .ok []
  | item :: rest =>
    if item.tag ≠ "li" then .error "AssertionError: expect li"
    else
      match item.children.toList with
      | [inner] => do
        let img ← extract_image_info inner
        let more ← extract_images_loop rest
        .ok (img :: more)
      | _ => .error "AssertionError: expect single div for image list item"

/-- `BlogInfo._extract_images`: the images section must be a `ul`. -/
def extract_images (node : Elem) : Except String (List ImageInfo) :=
  if node.tag ≠ "ul" then .error "ValueError: expect list of images"
  else extract_images_loop node.children.toList

/-- Child loop of `BlogInfo._extract_moreimage`. -/
def extract_moreimage_loop (info : ImageInfo) (posAfter : Bool) :
    List Elem → Except String ImageInfo
  | [] => .ok info
  | sub :: rest =>
    if sub.tag = "a" then do
      let ht ← extract_image_link sub
      extract_moreimage_loop
        { info with href := some (some ht.1), title := some ht.2 } true rest
    else if sub.tag = "span" then
      let t := node_text sub
      let t := if !posAfter && pyStartsWith t "see:" then pyStrip (pyDrop 5 t)
               else pyStrip t
      extract_moreimage_loop
        (if posAfter then { info with after := info.after ++ [t] }
         else { info with before := info.before ++ [t] }) posAfter rest
    else if sub.tag = "b" then
      let frag := sub.serialize
      extract_moreimage_loop
        (if posAfter then { info with after := info.after ++ [frag] }
         else { info with before := info.before ++ [frag] }) posAfter rest
    else
      .error "ValueError: troubles with moreimages handling"

/-- `BlogInfo._extract_moreimage`: `ok none` models the `return None`
"not a stacked image, section ends" outcomes. -/
def extract_moreimage (node : Elem) : Except String (Option ImageInfo) :=
  if node.tag ≠ "div" then .error "AssertionError: expect div"
  else
    let pfx := pyStrip (node.text.getD "")
    let pfxR : Except String (Option String) :=
      if pyStartsWith pfx "see:" then .ok (some (pyStrip (pyDrop 5 pfx)))
      else if pyStartsWith pfx "see." then .ok (some (pyStrip (pyDrop 5 pfx)))
      else if pyStartsWith pfx "see\xa0" then .ok (some (pyStrip (pyDrop 5 pfx)))
      else if pfx ≠ "" then
        -- the `see.` re-check inside this branch is unreachable;
        -- every remaining prefix ends the section with `return None`
        .ok none
      else .ok (some pfx)
    match pfxR with
    | .error e => .error e
    | .ok none => .ok none
    | .ok (some pfx) => do
      let info : ImageInfo := if pfx ≠ "" then { before := [pfx] } else {}
      let info ← extract_moreimage_loop info false node.children.toList
      -- `'before' in image_info` is always true, so a missing link is
      -- recorded as `href = None` rather than rejecting the item
      match info.href with
      | none => .ok (some { info with href := some none })
      | some _ => .ok (some info)

/-- One album entry: the `#` count, the `u` date, other `key=value` pairs,
the title and the `extras` block. -/
structure AlbumInfo where
  title : String := ""
  count : Option Int := none
  udate : Option PyDate := none
  others : List (String × String) := []
  extras : Option String := none
  old_counts : List (String × Nat) := []
deriving DecidableEq, Repr

/-- Property loop of `BlogInfo._extract_album_item_info`: each
space-separated item must be a single `key=value` pair; `u` values are
parsed as dates and `#` values as integers, both raising on failure. -/
def album_item_loop (info : AlbumInfo) : List String → Except String AlbumInfo
  | [] => .ok info
  | item :: rest =>
    match splitCh '=' item with
    | [k, v] =>
      if k = "u" then
        match parseIsoDate v with
        | some d => album_item_loop { info with udate := some d } rest
        | none => .error "ValueError: time data does not match format Y-m-d"
      else if k = "#" then
        match pyInt? v with
        | some n => album_item_loop { info with count := some n } rest
        | none => .error "ValueError: invalid literal for int"
      else album_item_loop { info with others := info.others ++ [(k, v)] } rest
    | _ => .error "ValueError: cannot unpack key=value"

/-- `BlogInfo._extract_album_item_info`. -/
def extract_album_item_info (value : String) : Except String AlbumInfo :=
  if !pyStartsWith value "#" then .error "ValueError: format error in album info"
  else album_item_loop {} (splitCh ' ' (pyStrip value))

/-- Item loop of `BlogInfo._extract_albums`: split each item on pipes into
title, property block and optional extras. -/
def extract_albums_loop : List Elem → Except String (List AlbumInfo)
  | [] => .ok []
  | item :: rest =>
    if item.tag ≠ "li" then .error "AssertionError: expect li"
    else
      let info := node_text item
      let props0 := splitCh '|' info
      if props0.length < 2 then .error "ValueError: cannot interpret album info"
      else
        let parts : String × String × String :=
          if props0.length > 2 then
            (joinCh '|' props0.dropLast, pyStrip ((props0.get? 1).getD ""),
             joinCh '|' (props0.drop 2))
          else
            (props0.headI, pyStrip ((props0.get? 1).getD ""), "")
        do
          let album ← extract_album_item_info parts.2.1
          let album := { album with title := parts.1 }
          let album := if parts.2.2 ≠ "" then { album with extras := some parts.2.2 }
                       else album
          let more ← extract_albums_loop rest
          .ok (album :: more)

/-- `BlogInfo._extract_albums`: the albums section must be a `ul`. -/
def extract_albums (node : Elem) : Except String (List AlbumInfo) :=
  if node.tag ≠ "ul" then .error "AssertionError: expect ul"
  else extract_albums_loop node.children.toList

/-- `BlogInfo._extract_blogprops`: each list item's text becomes one
property. -/
def extract_blogprops (node : Elem) : Except String (List String) :=
  if node.tag ≠ "ul" then .error "AssertionError: expect ul"
  else
    node.children.toList.foldlM (fun acc sub =>
      if sub.tag ≠ "li" then .error "AssertionError: expect li"
      else .ok (acc ++ [node_text sub])) []

/-- `BlogInfo._extract_galleries`: each list item's text becomes one
gallery entry. -/
def extract_galleries (node : Elem) : Except String (List String) :=
  if node.tag ≠ "ul" then .error "AssertionError: expect ul"
  else
    node.children.toList.foldlM (fun acc sub =>
      if sub.tag ≠ "li" then .error "AssertionError: expect li"
      else .ok (acc ++ [node_text sub])) []

/-! ## `blog_info.py` — the section state machine of `_extract_blog_info` -/

/-- The `section` variable of `_extract_blog_info`. -/
inductive Sect where
  | start | images | moreimages | afterimages | status | bloginfo
  | blogdesc | blogprops | albums | albumsold | galleries | theend | afterend
deriving DecidableEq, Repr

/-- The fields of `BlogInfo` filled in by `_extract_blog_info`. -/
structure BState where
  sect : Sect := .start
  note_updated : Option PyDate := none
  blog_latest_update : Option PyDate := none
  blog_id : Option String := none
  images : List ImageInfo := []
  more_images : List ImageInfo := []
  text_at_start : List String := []
  text_after_images : List String := []
  blog_updates : List String := []
  source_url : Option String := none
  status_xml : List String := []
  bloginfo_xml : List String := []
  blogdesc_xml : List String := []
  properties : List String := []
  albums : Option (List AlbumInfo) := some []
  galleries : Option (List String) := some []
  timestamp : Option (PyDate × Nat × Nat) := none
  albumold_title : Option String := none
deriving Repr

/-- `BlogInfo._extract_blog_updates`: when the first ten characters of the
node text parse as a date, the full text is recorded as an update line and
the date returned. -/
def extract_blog_updates (st : BState) (node : Elem) : BState × Option PyDate :=
  let div_text := node_text node
  match parseIsoDate (pyTake 10 div_text) with
  | some d => ({ st with blog_updates := st.blog_updates ++ [div_text] }, some d)
  | none => (st, none)

/-- The `theend` branch of the state machine (also the fall-through target
of the `galleries` branch).  A non-timestamp text falls into `afterend`,
whose only behavior is to raise. -/
def handle_theend (st : BState) (node : Elem) : Except String BState :=
  if node.tag = "div" then
    let t := node_text node
    if pyStartsWith t "Galleries" then
      .error "ValueError: troubles with galleries extraction"
    else if t = "." then .ok st
    else
      match parseTimestampMin t with
      | some ts => .ok { st with timestamp := some ts }
      | none => .error ("ValueError: unexpected text at end: " ++ node.serialize)
  else if node.tag = "ul" then
    match st.galleries with
    | none => .error "TypeError: object of type NoneType has no len"
    | some gs =>
      if gs.length > 0 then .ok st
      else .error "AssertionError: galleries expected"
  else .error "ValueError: detected unhandled element in theend"

/-- The `galleries` branch; an unrecognized text line falls through into
`handle_theend` for the same node. -/
def handle_galleries (st : BState) (node : Elem) : Except String BState :=
  if node.tag = "div" then
    let t := node_text node
    if pyStartsWith t "Galleries" then .ok st
    else if pyStartsWith t "No galleries" then
      .ok { st with galleries := none, sect := .theend }
    else handle_theend { st with sect := .theend } node
  else if node.tag = "ul" then do
    let gs ← extract_galleries node
    match st.galleries with
    | none => .error "AttributeError: NoneType object has no attribute append"
    | some old => .ok { st with galleries := some (old ++ gs) }
  else if node.tag = "hr" then .ok { st with sect := .theend }
  else .error "ValueError: detected unhandled element in galleries"

/-- Keyword loop of `BlogInfo._extract_albumold_item_info`: for each
recognized keyword occurring in the remaining text, split on it (asserting
a single occurrence), peel the digit suffix before it as the count (an
empty digit suffix makes `int` raise), and continue on the re-joined
remainder until it is exhausted. -/
def albumold_kw_loop (info : List (String × Nat)) (value : String) :
    List (String × String) → Except String (List (String × Nat) × String)
  | [] => .ok (info, value)
  | (keyword, key) :: rest =>
    if pyContains value keyword then
      let parts := pySplitStr keyword value
      if parts.length ≠ 2 then .error "AssertionError: expect two parts"
      else
        let part0 := pyStrip parts.headI
        let pd := digitSuffixSplit part0.data
        match natFromDigits? pd.2 with
        | none => .error "ValueError: invalid literal for int"
        | some n =>
          let value2 := pyStrip (⟨pd.1⟩ ++ " " ++ (parts.get? 1).getD "")
          if value2 = "" then .ok (info ++ [(key, n)], "")
          else albumold_kw_loop (info ++ [(key, n)]) value2 rest
    else albumold_kw_loop info value rest

/-- `BlogInfo._extract_albumold_item_info`: the `·` separator becomes a
space, then the keyword loop collects `photos`/`videos`/`views` counts. -/
def extract_albumold_item_info (value : String) :
    Except String (List (String × Nat)) := do
  let value := pyReplaceChar '\xb7' ' ' value
  let r ← albumold_kw_loop [] value
    [("photos", "#"), ("photo", "#"), ("videos", "m"), ("video", "m"),
     ("views", "v"), ("view", "v")]
  -- a nonempty leftover is only logged
  .ok r.1

/-- The `albumsold` branch (legacy non-list album formatting): empty lines
reset the pending title, an `h4` opens an album title, a line with
recognized count keywords closes the album and appends it. -/
def handle_albumsold (st : BState) (node : Elem) : Except String BState :=
  if node.tag = "div" then
    let div_text := node_text node
    if div_text = "" then .ok { st with albumold_title := none }
    else do
      let album_info ← extract_albumold_item_info div_text
      if album_info.isEmpty then
        -- `div_text not in ('.',)` is only a logged warning
        .ok st
      else
        match st.albumold_title with
        | none => .error "AssertionError: troubles extracting album info"
        | some t =>
          match st.albums with
          | none => .error "AttributeError: NoneType object has no attribute append"
          | some old =>
            let hashCount := (album_info.lookup "#").map (fun n => (n : Int))
            let entry : AlbumInfo :=
              { title := t, count := hashCount,
                old_counts := album_info.filter (fun kv => kv.1 ≠ "#") }
            .ok { st with albums := some (old ++ [entry]), albumold_title := none }
  else if node.tag = "h4" then
    match st.albumold_title with
    | some _ => .error "AssertionError: troubles extracting album info"
    | none => .ok { st with albumold_title := some (node_text node) }
  else if node.tag = "hr" then .ok { st with sect := .galleries }
  else .error "ValueError: old style album list, unhandled element"

/-- The `afterimages` branch: dated update lines, free text, and the `hr`
that opens the status section. -/
def handle_afterimages (st : BState) (node : Elem) : Except String BState :=
  if node.tag = "div" then
    let su := extract_blog_updates st node
    match su.2 with
    | some updated =>
      let st := su.1
      .ok (if st.blog_latest_update.isNone
           then { st with blog_latest_update := some updated } else st)
    | none =>
      let text_after := node.serialize
      if text_after = "<div>...</div>" then .ok st
      else .ok { st with text_after_images := st.text_after_images ++ [text_after] }
  else if node.tag = "hr" then .ok { st with sect := .status }
  else .error "ValueError: detected unhandled element in afterimages"

/-- The `albums` branch; a text line that is neither the `Albums` heading
nor `No albums` switches to the legacy handling and falls through. -/
def handle_albums (st : BState) (node : Elem) : Except String BState :=
  if node.tag = "div" then
    let t := node_text node
    if pyStartsWith t "Albums" then .ok st
    else if t = "No albums" then
      .ok { st with albums := none, sect := .galleries }
    else handle_albumsold { st with sect := .albumsold } node
  else if node.tag = "h4" then
    handle_albumsold { st with sect := .albumsold } node
  else if node.tag = "ul" then do
    let items ← extract_albums node
    match st.albums with
    | none => .error "AttributeError: NoneType object has no attribute append"
    | some old => .ok { st with albums := some (old ++ items) }
  else if node.tag = "hr" then .ok { st with sect := .galleries }
  else .error "ValueError: detected unhandled element in albums"

/-- The `bloginfo` branch: the first anchor inside a `div` determines the
blog id from a `/people/` or `/photos/` URL. -/
def handle_bloginfo (st : BState) (node : Elem) : Except String BState :=
  if node.tag = "div" then do
    let st ←
      match node.children.toList.filter (fun el => el.tag = "a") with
      | [] => .ok st
      | blog_link :: _ =>
        match blog_link.attrs.lookup "href" with
        | none => .error "KeyError: href"
        | some blog_url =>
          if !pyStartsWith blog_url "https://www.flickr.com/" then
            .error "ValueError: bad blog url"
          else
            let parts := pySplitStr "/people/" blog_url
            if parts.length ≠ 1 then
              let bid := (splitCh '/' ((parts.get? 1).getD "")).headI
              .ok { st with blog_id := some bid }
            else
              let parts := pySplitStr "/photos/" blog_url
              if parts.length ≠ 2 then
                .error "ValueError: expect flickr url to blog or photo stream"
              else
                let bid := (splitCh '/' ((parts.get? 1).getD "")).headI
                .ok { st with blog_id := some bid }
    .ok { st with bloginfo_xml := st.bloginfo_xml ++ [node.serialize] }
  else if node.tag = "en-media" then
    .ok { st with bloginfo_xml := st.bloginfo_xml ++ [node.serialize] }
  else if node.tag = "hr" then
    -- a missing blog id is only logged
    .ok { st with sect := .blogdesc }
  else .error "ValueError: detected unhandled element in bloginfo"

/-- The `blogdesc` branch: an `hr` only closes the section when the raw
next sibling is a list; otherwise it is part of the description (unless
followed by an empty `<div><br/></div>`). -/
def handle_blogdesc (st : BState) (node : Elem) (nxt : Option Elem) :
    Except String BState :=
  if node.tag = "div" || node.tag = "h4" || node.tag = "ul" || node.tag = "ol" then
    .ok { st with blogdesc_xml := st.blogdesc_xml ++ [node.serialize] }
  else if node.tag = "hr" then
    match nxt with
    | none => .error "AttributeError: NoneType object has no attribute tag"
    | some nx =>
      if nx.tag = "ul" then .ok { st with sect := .blogprops }
      else if nx.serialize ≠ "<div><br/></div>" then
        .ok { st with blogdesc_xml := st.blogdesc_xml ++ [node.serialize] }
      else .ok st
  else .error "ValueError: detected unhandled element in blogdesc"

/-- The `status` branch: text lines (whose first anchor, if any, becomes
the source url) and the `hr` that opens the bloginfo section. -/
def handle_status (st : BState) (node : Elem) : Except String BState :=
  if node.tag = "div" then do
    let st ←
      match node.children.toList.filter (fun el => el.tag = "a") with
      | [] => .ok st
      | src_link :: _ =>
        match src_link.attrs.lookup "href" with
        | none => .error "KeyError: href"
        | some href => .ok { st with source_url := some href }
    .ok { st with status_xml := st.status_xml ++ [node.serialize] }
  else if node.tag = "hr" then .ok { st with sect := .bloginfo }
  else .error "ValueError: detected unhandled element in status"

/-- The section dispatch of `_extract_blog_info` after the marker and
first-date handling; `nxt` is the raw next sibling (`node.getnext()`). -/
def dispatch_section (st : BState) (node : Elem) (nxt : Option Elem) :
    Except String BState :=
  match st.sect with
  | .start =>
    if node.tag = "div" then
      .ok { st with text_at_start := st.text_at_start ++ [node.serialize] }
    else .error "ValueError: unexpected text in start section"
  | .images => do
    let imgs ← extract_images node
    .ok { st with images := st.images ++ imgs, sect := .moreimages }
  | .moreimages => do
    let img ← extract_moreimage node
    match img with
    | some info => .ok { st with more_images := st.more_images ++ [info] }
    | none => handle_afterimages { st with sect := .afterimages } node
  | .afterimages => handle_afterimages st node
  | .status => handle_status st node
  | .bloginfo => handle_bloginfo st node
  | .blogdesc => handle_blogdesc st node nxt
  | .blogprops =>
    if node.tag = "ul" then do
      let props ← extract_blogprops node
      .ok { st with properties := st.properties ++ props }
    else if node.tag = "hr" then .ok { st with sect := .albums }
    else .error "ValueError: detected unhandled element in blogprops"
  | .albums => handle_albums st node
  | .albumsold => handle_albumsold st node
  | .galleries => handle_galleries st node
  | .theend => handle_theend st node
  | .afterend => .error ("ValueError: unexpected text at end: " ++ node.serialize)

/-- One iteration of the `for node in root.getchildren()` loop: skip empty
divs, read the leading date, recognize the two section markers, then
dispatch on the current section. -/
def extract_node (st : BState) (node : Elem) (nxt : Option Elem) :
    Except String BState :=
  if node.tag = "div" && is_empty node then .ok st
  else if st.note_updated.isNone then
    if node.tag ≠ "div" then
      .error "AssertionError: expect first div to hold date of last update"
    else do
      let d ← extract_isodate node
      .ok { st with note_updated := some d }
  else if is_marker node "images:" then
    if st.sect = .start then .ok { st with sect := .images }
    else .error "AssertionError: images in mode"
  else if is_marker node "more images:" then
    match st.sect with
    | .start => .ok { st with sect := .moreimages }
    | .moreimages => .ok { st with sect := .moreimages }
    | _ => .error "ValueError: more images in mode"
  else dispatch_section st node nxt

/-- The loop of `_extract_blog_info` over the top-level children; the next
list entry is the raw `getnext()` sibling. -/
def extract_loop (st : BState) : List Elem → Except String BState
  | [] => .ok st
  | node :: rest => do
    let st' ← extract_node st node rest.head?
    extract_loop st' rest

/-- `BlogInfo._extract_blog_info` on the top-level children of a note
body. -/
def extract_blog_info (body : List Elem) : Except String BState :=
  extract_loop {} body

/-! ## Concrete fixtures used by the claim theorems -/

/-- Element constructor with no tail text. -/
def el (tagName : String) (attrList : List (String × String))
    (txt : Option String) (kids : List Elem) : Elem :=
  .mk tagName attrList txt (ElemList.ofList kids) none

/-- A `div` holding only text. -/
def textDiv (t : String) : Elem := el "div" [] (some t) []

/-- A horizontal rule. -/
def hrElem : Elem := el "hr" [] none []

/-- A synthetic blog note body with every section in the documented order:
leading date, `images:` list, `more images:` entry, dated update lines,
rules separating status / bloginfo / blogdesc / blogprops / albums /
galleries, and the trailing timestamp. -/
def blogBodyOrdered : List Elem :=
  [textDiv "2024-01-05",
   textDiv "images:",
   el "ul" [] none
     [el "li" [] none
       [el "div" [] none
         [el "a"
           [("href", "https://www.flickr.com/photos/137473925@N08/51089206529/"),
            ("rel", "noopener noreferrer"), ("rev", "en_rl_none"),
            ("shape", "rect")]
           (some "sample image") [],
          el "span" [("style", "--en-highlight:yellow")] (some "51089206529") []]]],
   textDiv "more images:",
   el "div" [] (some "see: sample2 51089206530.jpg ")
     [el "a" [("href", "https://www.flickr.com/photos/137473925@N08/51089206530/")]
       (some "flickr image") []],
   textDiv "2023-09-12: #=334, t=2023-04-08, u=2023-09-10",
   textDiv "2023-06-02: #=330, t=2023-03-01, u=2023-05-30",
   hrElem,
   el "div" [] (some "Clip-Quelle: ")
     [el "a" [("href", "https://www.flickr.com/photos/137473925@N08/")]
       (some "https://www.flickr.com/photos/137473925@N08/") []],
   hrElem,
   el "div" [] none
     [el "a" [("href", "https://www.flickr.com/people/137473925@N08/")]
       (some "P@tH Im@ges") []],
   hrElem,
   textDiv "Landscape photography from Wales.",
   hrElem,
   el "ul" [] none
     [el "li" [] (some "joined: 2017-03-04") [],
      el "li" [] (some "first photo taken: 2016-12-31") []],
   hrElem,
   textDiv "Albums:",
   el "ul" [] none
     [el "li" [] (some "Caminos y huellas | #=120 u=2023-08-26") [],
      el "li" [] (some "Blumen Flower | #=379 u=2023-04-22") []],
   hrElem,
   textDiv "Galleries:",
   el "ul" [] none
     [el "li" [] (some "Wales landscapes | 72157719 | #=24 c=2021-05-01 u=2022-07-15") []],
   textDiv "2024-01-05T12:30"]

/-- The same body with a second `images:` marker inserted after the image
list. -/
def blogBodyDoubleImages : List Elem :=
  blogBodyOrdered.take 3 ++ [textDiv "images:"] ++ blogBodyOrdered.drop 3

/-- Cached head entry for the `update_cache` fixtures. -/
def cacheA : PhotoInfo := { id := .real "100", taken := "2023-01-01", uploaded := "1672531200" }

/-- Freshly fetched entry for the `update_cache` fixtures. -/
def cacheB : PhotoInfo := { id := .real "200", taken := "2023-06-01", uploaded := "1685577600" }

/-- A stored photo-note record owned by the same note, verified after the
note's last edit, with a recent database write. -/
def pnC2 : FlickrPhotoNote :=
  { image_key := "99@N00|1234", guid_note := "g-1",
    date_verified := some ⟨2024, 5, 1⟩, entry_updated := some ⟨2024, 4, 20⟩ }

/-- The primary image link of the `pnC2` note. -/
def linkC2 : LinkInfo := { image_key := "99@N00|1234", blog_id := "99@N00", photo_id := "1234" }

/-- Analysis result of the `pnC2` note: existing record, one link. -/
def resC2 : AnalysisResult :=
  { photo_note := some pnC2, link := some linkC2, all := [linkC2], see := some "1234 x.jpg" }

/-- A pre-existing `flickr_image` row with every optional column
populated, to watch `REPLACE INTO` reset them. -/
def rowC6 : ImageRow :=
  { image_key := "99@N00|1234", guid_note := "g-1", is_primary := true,
    note_tags := some "|flickr-image|", blog_id := some "99@N00",
    entry_updated := some "2023-01-01", date_verified := some "2023-01-01",
    photo_id := "1234", secret_id := some "abc123", size_suffix := some "b",
    photo_taken := some "2020-06-01", photo_uploaded := some "2020-06-02",
    is_gone := true }

/-- Record used when watching `REPLACE INTO` reset the unlisted columns of
`rowC6`. -/
def pnC6 : FlickrPhotoNote :=
  { image_key := "99@N00|1234", guid_note := "g-1",
    date_verified := some ⟨2024, 5, 1⟩ }

/-- Link used when watching `REPLACE INTO` reset the unlisted columns of
`rowC6`. -/
def linkC6 : LinkInfo :=
  { image_key := "99@N00|1234", blog_id := "99@N00", photo_id := "1234" }

/-! ## Helper lemmas -/

theorem charDigit?_digitChar (n : Nat) (h : n < 10) :
    charDigit? (digitChar n) = some n := by
  interval_cases n <;> decide

theorem daysInMonth_le (y m : Nat) : daysInMonth y m ≤ 31 := by
  unfold daysInMonth
  split
  · split <;> omega
  · split <;> omega

/-- The bounds packed into `PyDate.valid`. -/
theorem PyDate.valid_bounds {d : PyDate} (h : d.valid = true) :
    1 ≤ d.year ∧ d.year ≤ 9999 ∧ 1 ≤ d.month ∧ d.month ≤ 12 ∧
      1 ≤ d.day ∧ d.day ≤ 31 := by
  have hb := daysInMonth_le d.year d.month
  simp only [PyDate.valid, Bool.and_eq_true, decide_eq_true_eq] at h
  omega

/-- Parsing the `YYYY-MM-DD` rendering of a valid date recovers the
date. -/
theorem parseIsoDate_isoformat (d : PyDate) (h : d.valid = true) :
    parseIsoDate d.isoformat = some d := by
  obtain ⟨hy1, hy2, hm1, hm2, hd1, hd2⟩ := PyDate.valid_bounds h
  obtain ⟨y, m, dd⟩ := d
  simp only at hy1 hy2 hm1 hm2 hd1 hd2
  have c1 := charDigit?_digitChar (y / 1000 % 10) (Nat.mod_lt _ (by omega))
  have c2 := charDigit?_digitChar (y / 100 % 10) (Nat.mod_lt _ (by omega))
  have c3 := charDigit?_digitChar (y / 10 % 10) (Nat.mod_lt _ (by omega))
  have c4 := charDigit?_digitChar (y % 10) (Nat.mod_lt _ (by omega))
  have c5 := charDigit?_digitChar (m / 10 % 10) (Nat.mod_lt _ (by omega))
  have c6 := charDigit?_digitChar (m % 10) (Nat.mod_lt _ (by omega))
  have c7 := charDigit?_digitChar (dd / 10 % 10) (Nat.mod_lt _ (by omega))
  have c8 := charDigit?_digitChar (dd % 10) (Nat.mod_lt _ (by omega))
  have hyr : y / 1000 % 10 * 1000 + y / 100 % 10 * 100 + y / 10 % 10 * 10 + y % 10 = y := by
    omega
  have hmr : m / 10 % 10 * 10 + m % 10 = m := by omega
  have hdr : dd / 10 % 10 * 10 + dd % 10 = dd := by omega
  simp only [PyDate.isoformat, pad4, pad2, List.cons_append, List.nil_append,
    parseIsoDate, c1, c2, c3, c4, c5, c6, c7, c8, Option.bind_eq_bind,
    Option.some_bind, hyr, hmr, hdr]
  simp [h]

theorem splitChAux_ne_nil (sep : Char) (l : List Char) :
    splitChAux sep l ≠ [] := by
  induction l with
  | nil => simp [splitChAux]
  | cons c rest ih =>
    simp only [splitChAux]
    cases hr : splitChAux sep rest with
    | nil => simp
    | cons w ws =>
      by_cases hc : c = sep <;> simp [hc]

theorem sep_not_mem_splitChAux (sep : Char) (l : List Char) :
    ∀ w ∈ splitChAux sep l, sep ∉ w := by
  induction l with
  | nil => intro w hw; simp [splitChAux] at hw; simp [hw]
  | cons c rest ih =>
    intro w hw
    simp only [splitChAux] at hw
    split at hw
    next heq => exact absurd heq (splitChAux_ne_nil sep rest)
    next w0 ws heq =>
      split at hw
      next hc =>
        rcases List.mem_cons.mp hw with rfl | hw2
        · simp
        · exact ih w (by rw [heq]; exact hw2)
      next hc =>
        rcases List.mem_cons.mp hw with rfl | hw2
        · intro hmem
          rcases List.mem_cons.mp hmem with heq2 | hmem0
          · exact hc heq2.symm
          · exact ih w0 (by rw [heq]; exact List.mem_cons_self _ _) hmem0
        · exact ih w (by rw [heq]; exact List.mem_cons_of_mem _ hw2)

theorem splitChAux_append (sep : Char) (w l : List Char) (hw : sep ∉ w)
    (w0 : List Char) (ws : List (List Char))
    (hl : splitChAux sep l = w0 :: ws) :
    splitChAux sep (w ++ l) = (w ++ w0) :: ws := by
  induction w with
  | nil => simpa using hl
  | cons c cs ih =>
    have hc : c ≠ sep := fun h => hw (h ▸ List.mem_cons_self c cs)
    have hcs : sep ∉ cs := fun h => hw (List.mem_cons_of_mem _ h)
    simp only [List.cons_append, splitChAux, List.append_eq]
    rw [ih hcs]
    simp [hc]

theorem splitChAux_joinChAux (sep : Char) (ws : List (List Char))
    (hws : ∀ w ∈ ws, sep ∉ w) (hne : ws ≠ []) :
    splitChAux sep (joinChAux sep ws) = ws := by
  induction ws with
  | nil => exact absurd rfl hne
  | cons w rest ih =>
    cases rest with
    | nil =>
      simp only [joinChAux]
      have : splitChAux sep ([] : List Char) = [] :: [] := rfl
      have h2 := splitChAux_append sep w [] (hws w (List.mem_cons_self _ _)) [] [] this
      simpa using h2
    | cons w2 rest2 =>
      have hrest : ∀ u ∈ w2 :: rest2, sep ∉ u := fun u hu =>
        hws u (List.mem_cons_of_mem _ hu)
      have ihr := ih hrest (by simp)
      simp only [joinChAux]
      have hstep : splitChAux sep (sep :: joinChAux sep (w2 :: rest2))
          = [] :: w2 :: rest2 := by
        simp only [splitChAux, ihr]
        simp
      have h2 := splitChAux_append sep w (sep :: joinChAux sep (w2 :: rest2))
        (hws w (List.mem_cons_self _ _)) [] (w2 :: rest2) hstep
      simpa using h2

/-- `String.mk (s.data) = s`. -/
theorem mk_data (s : String) : ⟨s.data⟩ = s := rfl

/-- Splitting a pipe-join recovers the word list, when the words are
pipe-free and the list nonempty. -/
theorem splitCh_joinCh (sep : Char) (ws : List String)
    (hws : ∀ w ∈ ws, sep ∉ w.data) (hne : ws ≠ []) :
    splitCh sep (joinCh sep ws) = ws := by
  unfold splitCh joinCh
  have hmap : ∀ u ∈ ws.map String.data, sep ∉ u := by
    intro u hu
    obtain ⟨w, hw, rfl⟩ := List.mem_map.mp hu
    exact hws w hw
  have hnem : ws.map String.data ≠ [] := by
    simpa using hne
  rw [show (String.mk (joinChAux sep (ws.map String.data))).data
      = joinChAux sep (ws.map String.data) from rfl]
  rw [splitChAux_joinChAux sep _ hmap hnem]
  rw [List.map_map]
  have hid : ((fun l => (⟨l⟩ : String)) ∘ String.data) = id := by
    funext s; rfl
  rw [hid, List.map_id]

theorem dedupF_nodup (l : List String) : (dedupF l).Nodup := by
  induction l with
  | nil => simp [dedupF]
  | cons x xs ih =>
    simp only [dedupF, List.nodup_cons]
    constructor
    · intro hmem
      have := List.mem_filter.mp hmem
      simp at this
    · exact ih.filter _

theorem mem_dedupF {x : String} {l : List String} : x ∈ dedupF l ↔ x ∈ l := by
  induction l with
  | nil => simp [dedupF]
  | cons y ys ih =>
    simp only [dedupF, List.mem_cons]
    constructor
    · rintro (rfl | h)
      · exact .inl rfl
      · exact .inr (ih.mp (List.mem_filter.mp h).1)
    · rintro (rfl | h)
      · exact .inl rfl
      · by_cases hxy : x = y
        · exact .inl hxy
        · exact .inr (List.mem_filter.mpr ⟨ih.mpr h, by simpa using hxy⟩)

theorem dedupF_eq_self {l : List String} (h : l.Nodup) : dedupF l = l := by
  induction l with
  | nil => rfl
  | cons x xs ih =>
    rcases List.nodup_cons.mp h with ⟨hx, hxs⟩
    simp only [dedupF, ih hxs]
    congr 1
    apply List.filter_eq_self.mpr
    intro y hy
    simp only [decide_eq_true_eq]
    intro hyx
    exact hx (hyx ▸ hy)

/-- Every component produced by `splitCh` is separator-free. -/
theorem sep_not_mem_splitCh (sep : Char) (s : String) :
    ∀ w ∈ splitCh sep s, sep ∉ w.data := by
  intro w hw
  unfold splitCh at hw
  obtain ⟨l, hl, rfl⟩ := List.mem_map.mp hw
  exact sep_not_mem_splitChAux sep s.data l hl

theorem splitCh_ne_nil (sep : Char) (s : String) : splitCh sep s ≠ [] := by
  unfold splitCh
  simp [splitChAux_ne_nil]

/-! ## Claim theorems -/

/-- C1: for every input URL, `NoteCreator.create_note` fails before any
photo is resolved: its first step `is_photo_url` accesses
`flickr_utils.is_flickr_url`, which `flickr_utils.py` never defines, so an
`AttributeError` propagates with no creation step performed; `updater.py`
imports the same undefined name at module level, so importing the Updater
fails outright. -/
theorem C1_create_note_raises :
    (∀ url : String,
      create_note url =
        (.error "AttributeError: module flickr_utils has no attribute is_flickr_url", []))
    ∧ updater_module_import =
        .error "ImportError: cannot import name is_flickr_url from flickr_utils"
    ∧ "is_flickr_url" ∉ flickr_utils_names := by
  refine ⟨fun url => rfl, rfl, by decide⟩

/-- C3 (code bug): for every blog note due for refresh, the blog handler
writes nothing: `BlogInfo.generate` is a stub returning `None`, so
`_update_blog` always returns `None` and `_update_flickr_blog` returns
before its export block (which itself could never run: it reads the
nonexistent `self.base_path` and calls `re.search` without a string).  No
`<blog_id>.<updated_date>.enex` export is ever produced. -/
theorem C3_blog_refresh_never_exports :
    ∀ (extracted : Option BlogExtract) (now : Int),
      update_blog extracted now = none ∧
      update_flickr_blog extracted now = .ok none := by
  intro extracted now
  have h : update_blog extracted now = none := by
    unfold update_blog
    cases extracted with
    | none => rfl
    | some b =>
      simp only [BlogInfo.generate]
      split
      · split <;> rfl
      · rfl
  refine ⟨h, ?_⟩
  unfold update_flickr_blog
  rw [h]

/-- C5: `update_image` stores `entry_updated = today` for every record and
link, and the stored row does not depend on the record's own
`entry_updated` field. -/
theorem C5_entry_updated_stamped_today :
    ∀ (pn : FlickrPhotoNote) (link : LinkInfo) (is_primary : Bool)
      (today : PyDate) (supplied : FlickrDate),
      (update_image_row pn link is_primary today).entry_updated
          = some today.isoformat
      ∧ update_image_row { pn with entry_updated := supplied } link is_primary today
          = update_image_row pn link is_primary today := by
  intro pn link is_primary today supplied
  exact ⟨rfl, rfl⟩

/-- C9 counterexample: license code `0` does not map to the label
`All Rights Reserved` — the code's label has a lowercase `reserved`. -/
theorem C9_counterexample :
    get_license_info "0" ≠ some "All Rights Reserved" := by decide

/-- C9 (amended): the table maps `0` to `All Rights reserved` (lowercase
`r`), the other seven codes exactly as claimed, and every other code to an
absent result. -/
theorem C9_license_table (c : String)
    (h : c ∉ license_info_table.map Prod.fst) :
    get_license_info c = none
    ∧ get_license_info "0" = some "All Rights reserved"
    ∧ get_license_info "1" = some "CC BY-NC-SA 2.0"
    ∧ get_license_info "2" = some "CC BY-NC 2.0"
    ∧ get_license_info "3" = some "CC BY-NC-ND 2.0"
    ∧ get_license_info "4" = some "CC BY 2.0"
    ∧ get_license_info "5" = some "CC BY-SA 2.0"
    ∧ get_license_info "9" = some "CC0 1.0 Public Domain"
    ∧ get_license_info "10" = some "Public Domain Mark 1.0" := by
  refine ⟨?_, rfl, rfl, rfl, rfl, rfl, rfl, rfl, rfl⟩
  simp only [license_info_table, List.map, List.mem_cons, List.not_mem_nil,
    or_false, not_or] at h
  obtain ⟨h0, h1, h2, h3, h4, h5, h9, h10⟩ := h
  have b0 : (c == "0") = false := beq_eq_false_iff_ne.mpr h0
  have b1 : (c == "1") = false := beq_eq_false_iff_ne.mpr h1
  have b2 : (c == "2") = false := beq_eq_false_iff_ne.mpr h2
  have b3 : (c == "3") = false := beq_eq_false_iff_ne.mpr h3
  have b4 : (c == "4") = false := beq_eq_false_iff_ne.mpr h4
  have b5 : (c == "5") = false := beq_eq_false_iff_ne.mpr h5
  have b9 : (c == "9") = false := beq_eq_false_iff_ne.mpr h9
  have b10 : (c == "10") = false := beq_eq_false_iff_ne.mpr h10
  unfold get_license_info license_info_table
  simp [List.lookup, b0, b1, b2, b3, b4, b5, b9, b10]

/-- C9 witness: code `6` is outside the table and yields an absent
result. -/
theorem C9_license_table_witness :
    "6" ∉ license_info_table.map Prod.fst ∧ get_license_info "6" = none :=
  ⟨by decide, (C9_license_table "6" (by decide)).1⟩

/-- C7: constructing a `FlickrDate` from the ISO rendering of any valid
date, serializing, and reconstructing yields the same date; an absent
`FlickrDate` serializes to an absent value, reconstructs to absent, and is
falsy. -/
theorem C7_date_roundtrip (d : PyDate) (h : d.valid = true) :
    FlickrDate.fromValue (some d.isoformat) = .ok (some d)
    ∧ FlickrDate.serialize (some d) = some d.isoformat
    ∧ FlickrDate.fromValue (FlickrDate.serialize (some d)) = .ok (some d)
    ∧ FlickrDate.serialize none = none
    ∧ FlickrDate.fromValue none = .ok none
    ∧ FlickrDate.toBool none = false := by
  have hp := parseIsoDate_isoformat d h
  refine ⟨?_, rfl, ?_, rfl, rfl, rfl⟩
  · simp [FlickrDate.fromValue, hp]
  · simp [FlickrDate.serialize, FlickrDate.fromValue, hp]

/-- C7 witness: the round trip at the leap day `2024-02-29`. -/
theorem C7_date_roundtrip_witness :
    (PyDate.valid ⟨2024, 2, 29⟩ = true)
    ∧ FlickrDate.fromValue (FlickrDate.serialize (some ⟨2024, 2, 29⟩))
        = .ok (some ⟨2024, 2, 29⟩) :=
  ⟨by decide, (C7_date_roundtrip ⟨2024, 2, 29⟩ (by decide)).2.2.1⟩

/-- C8: for every record state and pipe-free cleanup reason, adding the
reason twice leaves the same pipe-delimited `need_cleanup` as adding it
once, the reason occurs exactly once among the components, and
`clear_cleanup` always yields the empty string. -/
theorem C8_cleanup_idempotent (s v : String) (hv : '|' ∉ v.data) :
    FlickrPhotoNote.add_cleanup_str (FlickrPhotoNote.add_cleanup_str s v) v
        = FlickrPhotoNote.add_cleanup_str s v
    ∧ (splitCh '|' (FlickrPhotoNote.add_cleanup_str s v)).count v = 1
    ∧ ∀ t : String, FlickrPhotoNote.clear_cleanup t = "" := by
  have hcomps : ∀ need : String,
      FlickrPhotoNote.add_cleanup_str need v
        = joinCh '|' (if v ∈ dedupF (splitCh '|' need) then dedupF (splitCh '|' need)
                      else dedupF (splitCh '|' need) ++ [v]) := by
    intro need
    simp [FlickrPhotoNote.add_cleanup_str, FlickrPhotoNote.add_cleanup_values]
  set comps := dedupF (splitCh '|' s) with hc
  set comps' := if v ∈ comps then comps else comps ++ [v] with hc'
  have hnodup : comps.Nodup := dedupF_nodup _
  have hfree : ∀ w ∈ comps, '|' ∉ w.data := fun w hw =>
    sep_not_mem_splitCh '|' s w (mem_dedupF.mp hw)
  have hnodup' : comps'.Nodup := by
    by_cases hm : v ∈ comps
    · rw [hc', if_pos hm]; exact hnodup
    · rw [hc', if_neg hm]
      refine List.Nodup.append hnodup (List.nodup_singleton v) ?_
      intro a ha hb
      simp only [List.mem_singleton] at hb
      exact hm (hb ▸ ha)
  have hfree' : ∀ w ∈ comps', '|' ∉ w.data := by
    intro w hw
    by_cases hm : v ∈ comps
    · rw [hc', if_pos hm] at hw; exact hfree w hw
    · rw [hc', if_neg hm] at hw
      rcases List.mem_append.mp hw with hmem | hmem
      · exact hfree w hmem
      · simp only [List.mem_singleton] at hmem
        exact hmem ▸ hv
  have hcne : comps ≠ [] := by
    rw [hc]
    cases hsp : splitCh '|' s with
    | nil => exact absurd hsp (splitCh_ne_nil '|' s)
    | cons x xs => simp [dedupF]
  have hne' : comps' ≠ [] := by
    by_cases hm : v ∈ comps
    · rw [hc', if_pos hm]; exact hcne
    · rw [hc', if_neg hm]; simp
  have hvmem : v ∈ comps' := by
    by_cases hm : v ∈ comps
    · rw [hc', if_pos hm]; exact hm
    · rw [hc', if_neg hm]; simp
  have hsplit : splitCh '|' (joinCh '|' comps') = comps' :=
    splitCh_joinCh '|' comps' hfree' hne'
  refine ⟨?_, ?_, fun t => rfl⟩
  · rw [hcomps s, hcomps (joinCh '|' comps'), hsplit,
      dedupF_eq_self hnodup', if_pos hvmem]
  · rw [hcomps s, hsplit]
    exact List.count_eq_one_of_mem hnodup' hvmem

/-- C8 witness: the idempotence at the cleanup reason `missing see-info`
on a fresh record (empty `need_cleanup`). -/
theorem C8_cleanup_idempotent_witness :
    ('|' ∉ "missing see-info".data)
    ∧ FlickrPhotoNote.add_cleanup_str
        (FlickrPhotoNote.add_cleanup_str "" "missing see-info") "missing see-info"
      = FlickrPhotoNote.add_cleanup_str "" "missing see-info" :=
  ⟨by decide, (C8_cleanup_idempotent "" "missing see-info" (by decide)).1⟩

/-- C4 counterexample: with cache `[cacheA]` and fetched page `[cacheB]`
(whose ids differ), `update_cache` stores the new page, a `-1` marker
entry, and the entire previous cache — the previous entry `cacheA` is
retained, so the cache is not replaced by the new page alone. -/
theorem C4_counterexample :
    update_cache (some [cacheA]) [cacheB] "2023-06-02"
      = .ok ([cacheB, markerEntry "2023-06-02", cacheA], -1)
    ∧ cacheA ∈ [cacheB, markerEntry "2023-06-02", cacheA]
    ∧ [cacheB, markerEntry "2023-06-02", cacheA] ≠ [cacheB] := by
  refine ⟨rfl, by simp, by simp⟩

/-- C4 (amended): when the previous head occurs nowhere in the nonempty
fetched page, the stored cache is the fetched page, then a marker entry
with id `-1`, then the whole previous cache, and the call returns `-1` —
the previous entries are retained, not dropped. -/
theorem C4_cache_not_replaced (newest : PhotoInfo) (rest updates : List PhotoInfo)
    (now : String) (hab : ∀ p ∈ updates, p.id ≠ newest.id) (hne : updates ≠ []) :
    update_cache (some (newest :: rest)) updates now
      = .ok (updates ++ markerEntry now :: newest :: rest, -1) := by
  have htwAll : ∀ l : List PhotoInfo, (∀ p ∈ l, p.id ≠ newest.id) →
      l.takeWhile (fun p => p.id ≠ newest.id) = l := by
    intro l
    induction l with
    | nil => intro _; rfl
    | cons a as iha =>
      intro hl
      simp only [List.takeWhile_cons, decide_eq_true_eq]
      rw [if_pos (hl a (List.mem_cons_self _ _)),
        iha (fun p hp => hl p (List.mem_cons_of_mem _ hp))]
  have htw := htwAll updates hab
  have hany : updates.any (fun p => p.id = newest.id) = false := by
    rw [List.any_eq_false]
    intro p hp
    simp [hab p hp]
  have hie : updates.isEmpty = false := by
    cases updates with
    | nil => exact absurd rfl hne
    | cons a as => rfl
  simp only [update_cache, htw, hany, hie]
  simp

/-- C4 witness: the amended statement at cache `[cacheA]`, page
`[cacheB]`. -/
theorem C4_cache_not_replaced_witness :
    (∀ p ∈ [cacheB], p.id ≠ cacheA.id) ∧ ([cacheB] ≠ ([] : List PhotoInfo))
    ∧ update_cache (some (cacheA :: [])) [cacheB] "t"
        = .ok ([cacheB] ++ markerEntry "t" :: cacheA :: [], -1) :=
  ⟨by decide, by decide,
    C4_cache_not_replaced cacheA [] [cacheB] "t" (by decide) (by decide)⟩

/-- C2 counterexample: for the note of `resC2` — same owning guid,
`date_verified` (2024-05-01) newer than the note's `updated` (2024-03-01),
`entry_updated` (2024-04-20) within the 90-day window of today
(2024-05-10) — the reconciler clears `update_flickr_info` but still issues
a database write: `update_image` is called for the primary link. -/
theorem C2_counterexample :
    (update_flickr_image resC2 "g-1" ⟨2024, 3, 1⟩ ⟨2024, 5, 10⟩).update_flickr_info = false
    ∧ (update_flickr_image resC2 "g-1" ⟨2024, 3, 1⟩ ⟨2024, 5, 10⟩).writes
        = [(pnC2, linkC2, true)]
    ∧ ([(pnC2, linkC2, true)] : List (FlickrPhotoNote × LinkInfo × Bool)) ≠ [] := by
  refine ⟨rfl, rfl, by simp⟩

/-- C2 (amended): whenever the record is owned by the note's own guid, its
`date_verified` is at least the note's `updated` date and its
`entry_updated` lies within the no-update window, `_update_flickr_image`
sets `update_flickr_info` to false (no Flickr refresh) — but it does not
skip the database write: `update_image` is still called for the primary
link and for every stacked link. -/
theorem C2_skip_still_writes (pn : FlickrPhotoNote) (link : LinkInfo)
    (allL : List LinkInfo) (see : Option String) (note_updated today dv eu : PyDate)
    (hdv : pn.date_verified = some dv)
    (heu : pn.entry_updated = some eu)
    (hnewer : note_updated.toOrdinal ≤ dv.toOrdinal)
    (hwin : eu.toOrdinal ≤ today.toOrdinal
      ∧ (today.toOrdinal : Int) - (eu.toOrdinal : Int) < NO_UPDATE_AGE) :
    (update_flickr_image ⟨some pn, some link, allL, see⟩ pn.guid_note
        note_updated today).update_flickr_info = false
    ∧ (update_flickr_image ⟨some pn, some link, allL, see⟩ pn.guid_note
        note_updated today).writes
      = (pn, link, true) ::
          (allL.filter (fun l => l.image_key ≠ link.image_key)).map
            (fun l => (pn, l, false)) := by
  have h2 : ¬ (note_updated.toOrdinal > dv.toOrdinal) := by omega
  have h3 : (eu.toOrdinal : Int) - (today.toOrdinal : Int) < NO_UPDATE_AGE := by
    have h1 := hwin.1
    unfold NO_UPDATE_AGE
    omega
  unfold update_flickr_image
  simp [hdv, heu, h2, h3]

/-- C2 witness: the amended statement at the concrete `resC2` scenario. -/
theorem C2_skip_still_writes_witness :
    (update_flickr_image ⟨some pnC2, some linkC2, [linkC2], some "1234 x.jpg"⟩
        pnC2.guid_note ⟨2024, 3, 1⟩ ⟨2024, 5, 10⟩).update_flickr_info = false
    ∧ (update_flickr_image ⟨some pnC2, some linkC2, [linkC2], some "1234 x.jpg"⟩
        pnC2.guid_note ⟨2024, 3, 1⟩ ⟨2024, 5, 10⟩).writes
      = (pnC2, linkC2, true) ::
          (([linkC2] : List LinkInfo).filter
            (fun l => l.image_key ≠ linkC2.image_key)).map
            (fun l => (pnC2, l, false)) :=
  C2_skip_still_writes pnC2 linkC2 [linkC2] (some "1234 x.jpg")
    ⟨2024, 3, 1⟩ ⟨2024, 5, 10⟩ ⟨2024, 5, 1⟩ ⟨2024, 4, 20⟩
    rfl rfl (by decide) ⟨by decide, by decide⟩

/-- C6: a `REPLACE INTO` issued by `update_image` over an existing row with
the same `(image_key, guid_note)` leaves the stored row with `secret_id`,
`size_suffix`, `photo_taken`, `photo_uploaded` reset to NULL and `is_gone`
reset to FALSE, whatever the previous row held. -/
theorem C6_replace_resets_unlisted (db : List ImageRow) (r0 : ImageRow)
    (pn : FlickrPhotoNote) (link : LinkInfo) (is_primary : Bool) (today : PyDate)
    (hmem : r0 ∈ db) (hk : r0.image_key = link.image_key)
    (hg : r0.guid_note = pn.guid_note) :
    lookup_row (replace_into db (update_image_row pn link is_primary today))
        link.image_key pn.guid_note
      = some (update_image_row pn link is_primary today)
    ∧ (update_image_row pn link is_primary today).secret_id = none
    ∧ (update_image_row pn link is_primary today).size_suffix = none
    ∧ (update_image_row pn link is_primary today).photo_taken = none
    ∧ (update_image_row pn link is_primary today).photo_uploaded = none
    ∧ (update_image_row pn link is_primary today).is_gone = false := by
  refine ⟨?_, rfl, rfl, rfl, rfl, rfl⟩
  unfold lookup_row replace_into
  apply List.find?_cons_of_pos
  simp [update_image_row]

/-- C6 witness: the fully populated row `rowC6` is replaced and every
unlisted column of the stored row is back at its default. -/
theorem C6_replace_resets_unlisted_witness :
    (rowC6 ∈ [rowC6] ∧ rowC6.image_key = linkC6.image_key
      ∧ rowC6.guid_note = pnC6.guid_note ∧ rowC6.secret_id = some "abc123"
      ∧ rowC6.is_gone = true)
    ∧ (lookup_row (replace_into [rowC6] (update_image_row pnC6 linkC6 true ⟨2024, 5, 10⟩))
          linkC6.image_key pnC6.guid_note
        = some (update_image_row pnC6 linkC6 true ⟨2024, 5, 10⟩)
      ∧ (update_image_row pnC6 linkC6 true ⟨2024, 5, 10⟩).secret_id = none
      ∧ (update_image_row pnC6 linkC6 true ⟨2024, 5, 10⟩).size_suffix = none
      ∧ (update_image_row pnC6 linkC6 true ⟨2024, 5, 10⟩).photo_taken = none
      ∧ (update_image_row pnC6 linkC6 true ⟨2024, 5, 10⟩).photo_uploaded = none
      ∧ (update_image_row pnC6 linkC6 true ⟨2024, 5, 10⟩).is_gone = false) :=
  ⟨⟨by simp, rfl, rfl, rfl, rfl⟩,
    C6_replace_resets_unlisted [rowC6] rowC6 pnC6 linkC6 true ⟨2024, 5, 10⟩
      (by simp) rfl rfl⟩

/-- C10: the synthetic blog body with all sections in the documented order
parses without error — recovering the leading date, the blog id, the album
list with integer counts and date values, the gallery list and the
trailing timestamp — while a body with a second `images:` marker raises a
structural parse failure. -/
theorem C10_blog_parser_sections :
    (extract_blog_info blogBodyOrdered).map (fun st =>
      (st.note_updated, st.blog_id, st.albums, st.galleries, st.timestamp,
        st.blog_updates, st.images.length, st.more_images.length))
    = .ok (some ⟨2024, 1, 5⟩, some "137473925@N08",
        some [{ title := "Caminos y huellas ", count := some 120,
                udate := some ⟨2023, 8, 26⟩ },
              { title := "Blumen Flower ", count := some 379,
                udate := some ⟨2023, 4, 22⟩ }],
        some ["Wales landscapes | 72157719 | #=24 c=2021-05-01 u=2022-07-15"],
        some (⟨2024, 1, 5⟩, 12, 30),
        ["2023-09-12: #=334, t=2023-04-08, u=2023-09-10",
         "2023-06-02: #=330, t=2023-03-01, u=2023-05-30"], 1, 1)
    ∧ extract_blog_info blogBodyDoubleImages
        = .error "AssertionError: images in mode" :=
  ⟨rfl, rfl⟩

end UpdatePhotonotes
